import Mathlib

/-!
Verification development for the Patient Management System backend
(`backend/main.py`, `backend/schemas.py`, `backend/models.py`).

The embedding is shallow: the SQL store becomes an explicit state record,
each FastAPI handler becomes a pure function from the state and the request
payload to a result paired with the next state, and pydantic request
validation becomes a boolean predicate checked before the handler body runs
(pydantic rejects a request with a 422 before the endpoint function is
entered). Python floats are modelled by exact rationals, and the Python
built-in `round` (documented round-half-to-even) by an exact
round-half-to-even on rationals. Timestamp columns (`created_at`) are
server-generated and play no role in any property treated here, so they are
omitted from the records. The modules `auth.py` and `database.py` are not
part of the sources; the password-hash capability and the token
service/authorization guard they provide are modelled from the
specification, and each such definition is marked `Modelled from the spec`.
-/

namespace PMS

/-- Round-half-to-even on rationals, the semantics of the Python built-in
`round` restricted to exact values: nearest integer, ties to the even
neighbour. -/
def roundHalfEven (q : ℚ) : ℤ :=
  let f := ⌊q⌋
  let r := q - (f : ℚ)
  if r < 1/2 then f
  else if 1/2 < r then f + 1
  else if f % 2 = 0 then f else f + 1

/-- Python `round(x, 2)`: round to two decimal places, ties to even. -/
def round2 (q : ℚ) : ℚ := (roundHalfEven (q * 100) : ℚ) / 100

/-- `PatientResponse.bmi` from `schemas.py`:
`round(self.weight / (self.height ** 2), 2)`. -/
def bmiOf (weight height : ℚ) : ℚ := round2 (weight / (height * height))

/-- `PatientResponse.verdict` from `schemas.py`: the if/elif chain over the
already-rounded bmi value. -/
def verdictOf (b : ℚ) : String :=
  if b < 18.5 then "Underweight"
  else if b < 25 then "Normal"
  else if b < 30 then "Overweight"
  else "Obese"

/-- The verdict classification exactly as the specification words it, with
explicit two-sided brackets; used only to be compared with `verdictOf`. -/
def specVerdict (b : ℚ) : String :=
  if b < 18.5 then "Underweight"
  else if 18.5 ≤ b ∧ b < 25 then "Normal"
  else if 25 ≤ b ∧ b < 30 then "Overweight"
  else "Obese"

/-- An HTTP error as raised by `HTTPException(status_code, detail)`. -/
structure HTTPError where
  status : Nat
  detail : String
deriving DecidableEq

/-- Request outcomes: a pydantic validation failure (HTTP 422, field-level
detail elided) or an `HTTPException` raised inside a handler. -/
inductive ApiError where
  | validationError : ApiError
  | httpError : HTTPError → ApiError
deriving DecidableEq

/-- `HTTPException(400, "Email already registered")` in `register_doctor`. -/
def emailConflict : HTTPError := ⟨400, "Email already registered"⟩

/-- `HTTPException(401, "Incorrect email or password")` in `login_doctor`. -/
def loginFailed : HTTPError := ⟨401, "Incorrect email or password"⟩

/-- `HTTPException(404, "Patient not found")` in the three id-addressed
patient handlers. -/
def patientNotFound : HTTPError := ⟨404, "Patient not found"⟩

/-- Modelled from the spec: the uniform `Unauthenticated` failure of the
authorization guard (`get_current_doctor` lives in the missing `auth.py`);
the spec fixes only the 401 status and that the message is uniform. -/
def unauthenticated : HTTPError := ⟨401, "Unauthenticated"⟩

/-- A `doctors` row from `models.py` (timestamp column omitted). -/
structure Doctor where
  id : Nat
  name : String
  email : String
  password_hash : String
deriving DecidableEq

/-- A `patients` row from `models.py` (timestamp column omitted). Gender is
kept as the enumeration member name string. -/
structure Patient where
  id : Nat
  name : String
  city : String
  age : Int
  gender : String
  height : ℚ
  weight : ℚ
  diagnosis : Option String
  prescription : Option String
deriving DecidableEq

/-- The persistent store: both tables plus the autoincrement counters. -/
structure DB where
  doctors : List Doctor
  patients : List Patient
  nextDoctorId : Nat
  nextPatientId : Nat
deriving DecidableEq

/-- `DoctorRegister` from `schemas.py` (EmailStr format validation is an
external pydantic concern and is not modelled; the `min_length=6` password
constraint is). -/
structure DoctorRegister where
  name : String
  email : String
  password : String
deriving DecidableEq

/-- `DoctorLogin` from `schemas.py`. -/
structure DoctorLogin where
  email : String
  password : String
deriving DecidableEq

/-- `DoctorResponse` from `schemas.py` (timestamp omitted). -/
structure DoctorResponse where
  id : Nat
  name : String
  email : String
deriving DecidableEq

/-- `PatientCreate` from `schemas.py`. -/
structure PatientCreate where
  name : String
  city : String
  age : Int
  gender : String
  height : ℚ
  weight : ℚ
  diagnosis : Option String
  prescription : Option String
deriving DecidableEq

/-- `PatientUpdate` from `schemas.py`: every field optional; `none` is an
unset field, `some v` a provided value. An explicit JSON null for a
non-nullable column is outside the behaviours treated here. -/
structure PatientUpdate where
  name : Option String
  city : Option String
  age : Option Int
  gender : Option String
  height : Option ℚ
  weight : Option ℚ
  diagnosis : Option String
  prescription : Option String
deriving DecidableEq

/-- `PatientResponse` from `schemas.py`: stored fields plus the two computed
fields emitted by serialization (timestamp omitted). -/
structure PatientResponse where
  id : Nat
  name : String
  city : String
  age : Int
  gender : String
  height : ℚ
  weight : ℚ
  diagnosis : Option String
  prescription : Option String
  bmi : ℚ
  verdict : String
deriving DecidableEq

/-- The `Literal` check on `gender`. -/
def validGender (g : String) : Bool :=
  g == "male" || g == "female" || g == "others"

/-- The pydantic constraints of `PatientCreate`: `age` with `gt=0, lt=120`,
`height` and `weight` with `gt=0`, gender a member of the literal set. The
string fields carry no constraint in the schema. -/
def validPatientCreate (d : PatientCreate) : Bool :=
  decide (0 < d.age) && decide (d.age < 120) && validGender d.gender
    && decide ((0 : ℚ) < d.height) && decide ((0 : ℚ) < d.weight)

/-- The pydantic constraints of `PatientUpdate`: each constraint of
`PatientCreate`, applied to a field only when that field is provided. -/
def validPatientUpdate (u : PatientUpdate) : Bool :=
  (match u.age with
   | none => true
   | some a => decide (0 < a) && decide (a < 120))
  && (match u.gender with
      | none => true
      | some g => validGender g)
  && (match u.height with
      | none => true
      | some h => decide ((0 : ℚ) < h))
  && (match u.weight with
      | none => true
      | some w => decide ((0 : ℚ) < w))

/-- The pydantic constraint of `DoctorRegister`: password at least 6 chars. -/
def validDoctorRegister (d : DoctorRegister) : Bool :=
  decide (6 ≤ d.password.length)

/-- Serialization through `PatientResponse`: the stored row plus `bmi` and
`verdict` computed at read time. -/
def serialize (p : Patient) : PatientResponse :=
  ⟨p.id, p.name, p.city, p.age, p.gender, p.height, p.weight,
   p.diagnosis, p.prescription,
   bmiOf p.weight p.height, verdictOf (bmiOf p.weight p.height)⟩

/-- The loop `for key, value in update_data.items(): setattr(patient, key,
value)` over `model_dump(exclude_unset=True)`: each provided field
overwrites the stored one, each unset field is untouched. -/
def applyUpdate (p : Patient) (u : PatientUpdate) : Patient :=
  ⟨p.id,
   u.name.getD p.name,
   u.city.getD p.city,
   u.age.getD p.age,
   u.gender.getD p.gender,
   u.height.getD p.height,
   u.weight.getD p.weight,
   match u.diagnosis with | none => p.diagnosis | some v => some v,
   match u.prescription with | none => p.prescription | some v => some v⟩

/-- Modelled from the spec: the hash capability `hash(password) -> digest`
from the missing `auth.py`; any injective digest function serves. -/
def get_password_hash (password : String) : String :=
  "digest:" ++ password

/-- Modelled from the spec: `verify(password, digest) -> bool` from the
missing `auth.py`. -/
def verify_password (password digest : String) : Bool :=
  digest == get_password_hash password

/-- `POST /auth/register` (`register_doctor` in `main.py`): reject a short
password (schema), reject a duplicate email, otherwise insert and return the
public projection. -/
def register_doctor (db : DB) (d : DoctorRegister) :
    Except ApiError DoctorResponse × DB :=
  if validDoctorRegister d then
    match db.doctors.find? (fun x => x.email == d.email) with
    | some _ => (.error (.httpError emailConflict), db)
    | none =>
      let newDoctor : Doctor :=
        ⟨db.nextDoctorId, d.name, d.email, get_password_hash d.password⟩
      (.ok ⟨newDoctor.id, newDoctor.name, newDoctor.email⟩,
       ⟨db.doctors ++ [newDoctor], db.patients,
        db.nextDoctorId + 1, db.nextPatientId⟩)
  else (.error .validationError, db)

/-- Modelled from the spec: a bearer token of the Token Service in the
missing `auth.py` — subject, absolute expiry, and the signing key standing
for the signature. -/
structure AccessToken where
  sub : Option String
  exp : Nat
  key : String
deriving DecidableEq

/-- `{access_token, token_type}` returned by login. -/
structure Token where
  access_token : AccessToken
  token_type : String
deriving DecidableEq

/-- Process-wide configuration: the signing secret and the current time,
injected so the service is deterministic. -/
structure Config where
  secret : String
  now : Nat
deriving DecidableEq

/-- The fixed TTL constant `ACCESS_TOKEN_EXPIRE_MINUTES`, in seconds. -/
def accessTokenTTL : Nat := 30 * 60

/-- Modelled from the spec: `issue(subject, ttl) -> token` of the Token
Service. -/
def create_access_token (cfg : Config) (sub : String) : AccessToken :=
  ⟨some sub, cfg.now + accessTokenTTL, cfg.secret⟩

/-- Modelled from the spec: `verify(token) -> subject | Invalid` — fails
when the signature does not match, the expiry has passed, or the subject is
absent. -/
def verify_token (cfg : Config) (t : AccessToken) : Option String :=
  if t.key == cfg.secret && decide (cfg.now < t.exp) then t.sub else none

/-- `POST /auth/login` (`login_doctor` in `main.py`): one uniform 401 for
both a missing email and a failed password check, a bearer token on
success. -/
def login_doctor (cfg : Config) (db : DB) (d : DoctorLogin) :
    Except ApiError Token :=
  match db.doctors.find? (fun x => x.email == d.email) with
  | none => .error (.httpError loginFailed)
  | some doc =>
    if verify_password d.password doc.password_hash then
      .ok ⟨create_access_token cfg doc.email, "bearer"⟩
    else .error (.httpError loginFailed)

/-- Modelled from the spec: the authorization guard `get_current_doctor`
from the missing `auth.py` — extract the bearer token (already parsed here;
`none` covers an absent or malformed header), verify it, resolve the
subject to a doctor, and fail uniformly otherwise. -/
def get_current_doctor (cfg : Config) (db : DB)
    (auth : Option AccessToken) : Except HTTPError Doctor :=
  match auth with
  | none => .error unauthenticated
  | some t =>
    match verify_token cfg t with
    | none => .error unauthenticated
    | some email =>
      match db.doctors.find? (fun x => x.email == email) with
      | none => .error unauthenticated
      | some doc => .ok doc

/-- `POST /patients` (`create_patient` in `main.py`): pydantic validates the
body, the handler inserts the row and returns it serialized. -/
def create_patient (db : DB) (d : PatientCreate) :
    Except ApiError PatientResponse × DB :=
  if validPatientCreate d then
    let p : Patient :=
      ⟨db.nextPatientId, d.name, d.city, d.age, d.gender, d.height, d.weight,
       d.diagnosis, d.prescription⟩
    (.ok (serialize p),
     ⟨db.doctors, db.patients ++ [p], db.nextDoctorId, db.nextPatientId + 1⟩)
  else (.error .validationError, db)

/-- `GET /patients` (`list_patients` in `main.py`). -/
def list_patients (db : DB) : List PatientResponse :=
  db.patients.map serialize

/-- `GET /patients/{id}` (`get_patient` in `main.py`). -/
def get_patient (db : DB) (pid : Nat) : Except ApiError PatientResponse :=
  match db.patients.find? (fun q => q.id == pid) with
  | none => .error (.httpError patientNotFound)
  | some p => .ok (serialize p)

/-- `PUT /patients/{id}` (`update_patient` in `main.py`): pydantic validates
the body, the handler resolves the row by primary key, overwrites exactly
the provided fields and returns the row serialized. The committed row is
the one with that primary key, which the store keeps unique. -/
def update_patient (db : DB) (pid : Nat) (u : PatientUpdate) :
    Except ApiError PatientResponse × DB :=
  if validPatientUpdate u then
    match db.patients.find? (fun q => q.id == pid) with
    | none => (.error (.httpError patientNotFound), db)
    | some p =>
      (.ok (serialize (applyUpdate p u)),
       ⟨db.doctors,
        db.patients.map (fun q => if q.id == pid then applyUpdate q u else q),
        db.nextDoctorId, db.nextPatientId⟩)
  else (.error .validationError, db)

/-- `DELETE /patients/{id}` (`delete_patient` in `main.py`): resolve by
primary key, remove that row (primary keys are unique in the store), return
the confirmation message. -/
def delete_patient (db : DB) (pid : Nat) :
    Except ApiError String × DB :=
  match db.patients.find? (fun q => q.id == pid) with
  | none => (.error (.httpError patientNotFound), db)
  | some _ =>
    (.ok "Patient deleted successfully",
     ⟨db.doctors, db.patients.filter (fun q => !(q.id == pid)),
      db.nextDoctorId, db.nextPatientId⟩)

/-- The protected surface of `main.py`: the five patient routes and
`GET /auth/me`, each carrying its (possibly absent) bearer token. -/
inductive Request where
  | authMe : Option AccessToken → Request
  | patientsCreate : Option AccessToken → PatientCreate → Request
  | patientsList : Option AccessToken → Request
  | patientsGet : Option AccessToken → Nat → Request
  | patientsUpdate : Option AccessToken → Nat → PatientUpdate → Request
  | patientsDelete : Option AccessToken → Nat → Request

/-- The bearer token attached to a protected request. -/
def reqAuth : Request → Option AccessToken
  | .authMe a => a
  | .patientsCreate a _ => a
  | .patientsList a => a
  | .patientsGet a _ => a
  | .patientsUpdate a _ _ => a
  | .patientsDelete a _ => a

/-- Success bodies of the protected routes. -/
inductive ResponseBody where
  | doctorBody : DoctorResponse → ResponseBody
  | patientBody : PatientResponse → ResponseBody
  | patientListBody : List PatientResponse → ResponseBody
  | messageBody : String → ResponseBody
deriving DecidableEq

/-- Dispatch for the protected routes: every handler in `main.py` declares
`current_doctor: Doctor = Depends(get_current_doctor)`, so the guard
resolves (or rejects) before the handler body runs. -/
def handle (cfg : Config) (db : DB) (r : Request) :
    Except ApiError ResponseBody × DB :=
  match get_current_doctor cfg db (reqAuth r) with
  | .error e => (.error (.httpError e), db)
  | .ok doc =>
    match r with
    | .authMe _ => (.ok (.doctorBody ⟨doc.id, doc.name, doc.email⟩), db)
    | .patientsCreate _ d =>
      let res := create_patient db d
      (res.fst.map .patientBody, res.snd)
    | .patientsList _ => (.ok (.patientListBody (list_patients db)), db)
    | .patientsGet _ pid => ((get_patient db pid).map .patientBody, db)
    | .patientsUpdate _ pid u =>
      let res := update_patient db pid u
      (res.fst.map .patientBody, res.snd)
    | .patientsDelete _ pid =>
      let res := delete_patient db pid
      ((res.fst.map .messageBody), res.snd)

/-- A `PatientUpdate` with every field unset: the empty JSON object. -/
def emptyUpdate : PatientUpdate :=
  ⟨none, none, none, none, none, none, none, none⟩

/-! Concrete sample data, used to instantiate the theorems below. -/

/-- The empty store, counters at 1 as with autoincrement keys. -/
def sampleDB : DB := ⟨[], [], 1, 1⟩

/-- The patient of the end-to-end scenario in the spec. -/
def samplePatient : Patient := ⟨1, "X", "Pune", 30, "male", 9/5, 90, none, none⟩

/-- A store holding exactly `samplePatient`. -/
def patientDB : DB := ⟨[], [samplePatient], 1, 2⟩

/-- A patient with weight 70 kg and height 1.75 m. -/
def patient70 : Patient := ⟨1, "A", "Pune", 30, "male", 7/4, 70, none, none⟩

/-- A patient with weight 45 kg and height 1.70 m. -/
def patient45 : Patient := ⟨2, "B", "Pune", 28, "female", 17/10, 45, none, none⟩

/-- An update payload providing only the city. -/
def cityOnlyUpdate : PatientUpdate :=
  ⟨none, some "Delhi", none, none, none, none, none, none⟩

/-- A fixed configuration for the witnesses. -/
def cfg0 : Config := ⟨"topsecret", 100⟩

/-- The store after deleting the only patient of `patientDB`. -/
def emptiedDB : DB := ⟨[], [], 1, 2⟩

/-- A first registration payload. -/
def regA : DoctorRegister := ⟨"Dr A", "a@x.com", "secret1"⟩

/-- A second registration payload with the same email. -/
def regB : DoctorRegister := ⟨"Dr B", "a@x.com", "secret2"⟩

/-- The doctor row persisted by `regA` into the empty store. -/
def doctorA : Doctor := ⟨1, "Dr A", "a@x.com", get_password_hash "secret1"⟩

/-- The store after registering `regA`. -/
def dbA : DB := ⟨[doctorA], [], 2, 1⟩

/-- A creation payload with age 0, otherwise well-formed. -/
def badAgeCreate : PatientCreate := ⟨"X", "Pune", 0, "male", 9/5, 90, none, none⟩

/-- An update payload providing a negative weight. -/
def badWeightUpdate : PatientUpdate :=
  ⟨none, none, none, none, none, some (-5), none, none⟩

/-- A creation payload whose name and city are both the empty string. -/
def emptyNameCreate : PatientCreate := ⟨"", "", 30, "male", 9/5, 90, none, none⟩

/-- The patient row persisted by `emptyNameCreate` into the empty store. -/
def emptyNamePatient : Patient := ⟨1, "", "", 30, "male", 9/5, 90, none, none⟩

/-! Theorems. -/

/-- Every successful patient response is the serialization of some stored
row. -/
theorem create_ok_serialize {db : DB} {d : PatientCreate}
    {resp : PatientResponse} {db2 : DB}
    (h : create_patient db d = (.ok resp, db2)) : ∃ p, resp = serialize p := by
  unfold create_patient at h
  split at h
  · simp only [Prod.mk.injEq, Except.ok.injEq] at h
    exact ⟨_, h.1.symm⟩
  · simp at h

/-- A successful get is the serialization of some stored row. -/
theorem get_ok_serialize {db : DB} {pid : Nat} {resp : PatientResponse}
    (h : get_patient db pid = .ok resp) : ∃ p, resp = serialize p := by
  unfold get_patient at h
  split at h
  · simp at h
  · simp only [Except.ok.injEq] at h
    exact ⟨_, h.symm⟩

/-- Every member of a list response is the serialization of some stored
row. -/
theorem list_mem_serialize {db : DB} {resp : PatientResponse}
    (h : resp ∈ list_patients db) : ∃ p, resp = serialize p := by
  obtain ⟨p, _, hp⟩ := List.mem_map.mp h
  exact ⟨p, hp.symm⟩

/-- A successful update response is the serialization of some stored row. -/
theorem update_ok_serialize {db : DB} {pid : Nat} {u : PatientUpdate}
    {resp : PatientResponse} {db2 : DB}
    (h : update_patient db pid u = (.ok resp, db2)) :
    ∃ p, resp = serialize p := by
  unfold update_patient at h
  split at h
  · split at h
    · simp at h
    · simp only [Prod.mk.injEq, Except.ok.injEq] at h
      exact ⟨_, h.1.symm⟩
  · simp at h

/-- The if/elif verdict chain of the code matches the two-sided bracket
classification worded by the spec. -/
theorem verdictOf_eq_specVerdict (b : ℚ) : verdictOf b = specVerdict b := by
  unfold verdictOf specVerdict
  by_cases h1 : b < 18.5
  · simp [h1]
  · by_cases h2 : b < 25
    · simp [h1, h2, not_lt.mp h1]
    · by_cases h3 : b < 30
      · simp [h1, h2, h3, not_lt.mp h2]
      · simp [h1, h2, h3]

/-- C1: every patient response produced by create, get, list or update
carries `bmi = round(weight / (height * height), 2)` and a verdict equal to
the bracket classification of that bmi, boundary values in the upper
bracket: a bmi of exactly 25 is Overweight and exactly 30 is Obese. -/
theorem c1_response_bmi_verdict :
    (∀ (db : DB) (resp : PatientResponse),
      ((∃ d db2, create_patient db d = (.ok resp, db2)) ∨
        (∃ pid, get_patient db pid = .ok resp) ∨
        resp ∈ list_patients db ∨
        (∃ pid u db2, update_patient db pid u = (.ok resp, db2))) →
      resp.bmi = round2 (resp.weight / (resp.height * resp.height)) ∧
        resp.verdict = specVerdict resp.bmi) ∧
    verdictOf 25 = "Overweight" ∧ verdictOf 30 = "Obese" := by
  refine ⟨?_, by norm_num [verdictOf], by norm_num [verdictOf]⟩
  intro db resp hmem
  have hser : ∃ p, resp = serialize p := by
    rcases hmem with ⟨d, db2, h⟩ | ⟨pid, h⟩ | h | ⟨pid, u, db2, h⟩
    · exact create_ok_serialize h
    · exact get_ok_serialize h
    · exact list_mem_serialize h
    · exact update_ok_serialize h
  obtain ⟨p, rfl⟩ := hser
  exact ⟨rfl, verdictOf_eq_specVerdict _⟩

/-- C1 witness: the response listed for the concrete stored patient obeys
the bmi and verdict properties. -/
theorem c1_witness :
    (serialize samplePatient).bmi
        = round2 ((serialize samplePatient).weight /
            ((serialize samplePatient).height * (serialize samplePatient).height)) ∧
      (serialize samplePatient).verdict = specVerdict (serialize samplePatient).bmi :=
  c1_response_bmi_verdict.1 patientDB (serialize samplePatient)
    (Or.inr (Or.inr (Or.inl (by simp [list_patients, patientDB]))))

/-- C3: a successful update applies exactly the provided fields — every
omitted field keeps its stored value, every provided one replaces it — the
payload passed revalidation, the updated row is stored, and the response
carries bmi and verdict recomputed from the resulting weight and height. -/
theorem c3_update_partial_patch :
    ∀ (db : DB) (pid : Nat) (u : PatientUpdate) (p : Patient)
      (resp : PatientResponse) (db2 : DB),
      db.patients.find? (fun q => q.id == pid) = some p →
      update_patient db pid u = (.ok resp, db2) →
      validPatientUpdate u = true ∧
      resp.name = u.name.getD p.name ∧
      resp.city = u.city.getD p.city ∧
      resp.age = u.age.getD p.age ∧
      resp.gender = u.gender.getD p.gender ∧
      resp.height = u.height.getD p.height ∧
      resp.weight = u.weight.getD p.weight ∧
      resp.diagnosis
        = (match u.diagnosis with | none => p.diagnosis | some v => some v) ∧
      resp.prescription
        = (match u.prescription with | none => p.prescription | some v => some v) ∧
      resp.bmi = bmiOf (u.weight.getD p.weight) (u.height.getD p.height) ∧
      resp.verdict = verdictOf resp.bmi ∧
      applyUpdate p u ∈ db2.patients := by
  intro db pid u p resp db2 hfind hupd
  unfold update_patient at hupd
  split at hupd
  case isFalse => simp at hupd
  case isTrue hv =>
    rw [hfind] at hupd
    simp only [Prod.mk.injEq, Except.ok.injEq] at hupd
    obtain ⟨hresp, hdb⟩ := hupd
    subst hresp
    refine ⟨hv, rfl, rfl, rfl, rfl, rfl, rfl, rfl, rfl, rfl, rfl, ?_⟩
    have hp : p ∈ db.patients := List.mem_of_find?_eq_some hfind
    have hid : (p.id == pid) = true := by simpa using List.find?_some hfind
    have hmem := List.mem_map_of_mem
      (fun q => if q.id == pid then applyUpdate q u else q) hp
    simp only [hid, if_true] at hmem
    rw [← hdb]
    exact hmem

/-- C3 witness: updating the stored sample patient with a payload holding
only a city leaves every other field at its prior value and recomputes the
derived fields from the unchanged weight and height. -/
theorem c3_witness :
    patientDB.patients.find? (fun q => q.id == 1) = some samplePatient ∧
      (validPatientUpdate cityOnlyUpdate = true ∧
        (serialize (applyUpdate samplePatient cityOnlyUpdate)).name
          = cityOnlyUpdate.name.getD samplePatient.name ∧
        (serialize (applyUpdate samplePatient cityOnlyUpdate)).city
          = cityOnlyUpdate.city.getD samplePatient.city ∧
        (serialize (applyUpdate samplePatient cityOnlyUpdate)).age
          = cityOnlyUpdate.age.getD samplePatient.age ∧
        (serialize (applyUpdate samplePatient cityOnlyUpdate)).gender
          = cityOnlyUpdate.gender.getD samplePatient.gender ∧
        (serialize (applyUpdate samplePatient cityOnlyUpdate)).height
          = cityOnlyUpdate.height.getD samplePatient.height ∧
        (serialize (applyUpdate samplePatient cityOnlyUpdate)).weight
          = cityOnlyUpdate.weight.getD samplePatient.weight ∧
        (serialize (applyUpdate samplePatient cityOnlyUpdate)).diagnosis
          = (match cityOnlyUpdate.diagnosis with
             | none => samplePatient.diagnosis | some v => some v) ∧
        (serialize (applyUpdate samplePatient cityOnlyUpdate)).prescription
          = (match cityOnlyUpdate.prescription with
             | none => samplePatient.prescription | some v => some v) ∧
        (serialize (applyUpdate samplePatient cityOnlyUpdate)).bmi
          = bmiOf (cityOnlyUpdate.weight.getD samplePatient.weight)
              (cityOnlyUpdate.height.getD samplePatient.height) ∧
        (serialize (applyUpdate samplePatient cityOnlyUpdate)).verdict
          = verdictOf (serialize (applyUpdate samplePatient cityOnlyUpdate)).bmi ∧
        applyUpdate samplePatient cityOnlyUpdate
          ∈ (DB.mk [] [applyUpdate samplePatient cityOnlyUpdate] 1 2).patients) :=
  ⟨rfl, c3_update_partial_patch patientDB 1 cityOnlyUpdate samplePatient
    (serialize (applyUpdate samplePatient cityOnlyUpdate))
    ⟨[], [applyUpdate samplePatient cityOnlyUpdate], 1, 2⟩ rfl rfl⟩

/-- C10: an update with the empty payload on an existing id succeeds,
leaves the store untouched, and returns the record serialized with the
derived fields computed from the unchanged weight and height. -/
theorem c10_empty_update_identity :
    ∀ (db : DB) (pid : Nat) (p : Patient),
      db.patients.find? (fun q => q.id == pid) = some p →
      update_patient db pid emptyUpdate = (.ok (serialize p), db) ∧
        (serialize p).bmi = bmiOf p.weight p.height ∧
        (serialize p).verdict = verdictOf (bmiOf p.weight p.height) := by
  intro db pid p hfind
  refine ⟨?_, rfl, rfl⟩
  have hv : validPatientUpdate emptyUpdate = true := rfl
  unfold update_patient
  rw [if_pos hv, hfind]
  have happ : ∀ q : Patient, applyUpdate q emptyUpdate = q := fun q => rfl
  simp only [happ, ite_self, List.map_id']

/-- C10 witness: the empty update on the stored sample patient returns it
unchanged with its derived fields. -/
theorem c10_witness :
    patientDB.patients.find? (fun q => q.id == 1) = some samplePatient ∧
      (update_patient patientDB 1 emptyUpdate
          = (.ok (serialize samplePatient), patientDB) ∧
        (serialize samplePatient).bmi
          = bmiOf samplePatient.weight samplePatient.height ∧
        (serialize samplePatient).verdict
          = verdictOf (bmiOf samplePatient.weight samplePatient.height)) :=
  ⟨rfl, c10_empty_update_identity patientDB 1 samplePatient rfl⟩

/-- C4: once an email is registered, a second well-formed registration with
the same email fails with the duplicate-email conflict, the store is
returned unchanged, and it holds exactly one doctor row with that email —
the row the first registration persisted. -/
theorem c4_register_duplicate_conflict :
    ∀ (db : DB) (d1 d2 : DoctorRegister) (r1 : DoctorResponse) (db1 : DB),
      register_doctor db d1 = (.ok r1, db1) →
      d2.email = d1.email →
      validDoctorRegister d2 = true →
      register_doctor db1 d2 = (.error (.httpError emailConflict), db1) ∧
        db1.doctors.filter (fun x => x.email == d1.email)
          = [⟨db.nextDoctorId, d1.name, d1.email, get_password_hash d1.password⟩] := by
  intro db d1 d2 r1 db1 h1 hemail hv2
  unfold register_doctor at h1
  split at h1
  case isFalse => simp at h1
  case isTrue hv1 =>
    split at h1
    case h_1 => simp at h1
    case h_2 hnone =>
      simp only [Prod.mk.injEq, Except.ok.injEq] at h1
      obtain ⟨hr1, hdb1⟩ := h1
      have hall : ∀ x ∈ db.doctors, (x.email == d1.email) = false := by
        intro x hx
        have := List.find?_eq_none.mp hnone x hx
        simpa using this
      constructor
      · unfold register_doctor
        rw [if_pos hv2]
        have hfind : db1.doctors.find? (fun x => x.email == d2.email)
            = some ⟨db.nextDoctorId, d1.name, d1.email, get_password_hash d1.password⟩ := by
          rw [← hdb1]
          simp only [List.find?_append, hemail]
          have hfe : db.doctors.find? (fun x => x.email == d1.email) = none :=
            List.find?_eq_none.mpr (by intro x hx; simp [hall x hx])
          rw [hfe]
          simp [List.find?]
        rw [hfind]
      · rw [← hdb1]
        simp only [List.filter_append]
        rw [List.filter_eq_nil_iff.mpr (by intro x hx; simp [hall x hx])]
        simp [List.filter]

/-- C4 witness: registering the same email twice on the empty store yields
the conflict on the second attempt and leaves exactly the one row. -/
theorem c4_witness :
    register_doctor sampleDB regA = (.ok ⟨1, "Dr A", "a@x.com"⟩, dbA) ∧
      regB.email = regA.email ∧ validDoctorRegister regB = true ∧
      (register_doctor dbA regB = (.error (.httpError emailConflict), dbA) ∧
        dbA.doctors.filter (fun x => x.email == regA.email)
          = [⟨sampleDB.nextDoctorId, regA.name, regA.email,
              get_password_hash regA.password⟩]) :=
  ⟨rfl, rfl, rfl,
    c4_register_duplicate_conflict sampleDB regA regB ⟨1, "Dr A", "a@x.com"⟩
      dbA rfl rfl rfl⟩

/-- C5: a login against a registered email with a failing password check
and a login against an unregistered email produce the same error — one
identical 401 with one identical message — so the caller cannot tell the
two apart. -/
theorem c5_login_uniform_error :
    ∀ (cfg : Config) (db : DB) (d1 d2 : DoctorLogin) (doc : Doctor),
      db.doctors.find? (fun x => x.email == d1.email) = some doc →
      verify_password d1.password doc.password_hash = false →
      db.doctors.find? (fun x => x.email == d2.email) = none →
      login_doctor cfg db d1 = .error (.httpError loginFailed) ∧
        login_doctor cfg db d2 = .error (.httpError loginFailed) ∧
        login_doctor cfg db d1 = login_doctor cfg db d2 ∧
        loginFailed.status = 401 := by
  intro cfg db d1 d2 doc hfind1 hverify hfind2
  have h1 : login_doctor cfg db d1 = .error (.httpError loginFailed) := by
    unfold login_doctor
    rw [hfind1]
    simp [hverify]
  have h2 : login_doctor cfg db d2 = .error (.httpError loginFailed) := by
    unfold login_doctor
    rw [hfind2]
  exact ⟨h1, h2, h1.trans h2.symm, rfl⟩

/-- C5 witness: a wrong password for the registered doctor and a login for
an absent email yield the identical 401 error. -/
theorem c5_witness :
    dbA.doctors.find? (fun x => x.email == "a@x.com") = some doctorA ∧
      verify_password "wrongpw" doctorA.password_hash = false ∧
      dbA.doctors.find? (fun x => x.email == "b@x.com") = none ∧
      (login_doctor cfg0 dbA ⟨"a@x.com", "wrongpw"⟩
          = .error (.httpError loginFailed) ∧
        login_doctor cfg0 dbA ⟨"b@x.com", "secret1"⟩
          = .error (.httpError loginFailed) ∧
        login_doctor cfg0 dbA ⟨"a@x.com", "wrongpw"⟩
          = login_doctor cfg0 dbA ⟨"b@x.com", "secret1"⟩ ∧
        loginFailed.status = 401) :=
  ⟨rfl, rfl, rfl,
    c5_login_uniform_error cfg0 dbA ⟨"a@x.com", "wrongpw"⟩
      ⟨"b@x.com", "secret1"⟩ doctorA rfl rfl rfl⟩

/-- The authorization guard rejects with the one uniform Unauthenticated
error whenever it rejects. -/
theorem guard_error_is_unauthenticated :
    ∀ (cfg : Config) (db : DB) (a : Option AccessToken) (e : HTTPError),
      get_current_doctor cfg db a = .error e → e = unauthenticated := by
  intro cfg db a e h
  unfold get_current_doctor at h
  split at h
  · simp only [Except.error.injEq] at h
    exact h.symm
  · split at h
    · simp only [Except.error.injEq] at h
      exact h.symm
    · split at h
      · simp only [Except.error.injEq] at h
        exact h.symm
      · simp at h

/-- C6: every protected route — the five patient routes and the who-am-I
route — runs the authorization guard first; when the guard does not resolve
a doctor the handler body never runs: the store is unchanged and the
request fails with the uniform 401 Unauthenticated error. -/
theorem c6_guard_gates_protected_routes :
    ∀ (cfg : Config) (db : DB) (r : Request) (e : HTTPError),
      get_current_doctor cfg db (reqAuth r) = .error e →
      handle cfg db r = (.error (.httpError e), db) ∧
        e = unauthenticated ∧ unauthenticated.status = 401 := by
  intro cfg db r e h
  refine ⟨?_, guard_error_is_unauthenticated cfg db (reqAuth r) e h, rfl⟩
  unfold handle
  rw [h]

/-- C6 witness: a request with no bearer token is rejected before the
handler runs, with the 401 error and no change to the store. -/
theorem c6_witness :
    get_current_doctor cfg0 patientDB (reqAuth (.patientsList none))
        = .error unauthenticated ∧
      (handle cfg0 patientDB (.patientsList none)
          = (.error (.httpError unauthenticated), patientDB) ∧
        unauthenticated = unauthenticated ∧ unauthenticated.status = 401) :=
  ⟨rfl, c6_guard_gates_protected_routes cfg0 patientDB (.patientsList none)
    unauthenticated rfl⟩

/-- The creation constraints spelled out. -/
theorem validPatientCreate_iff (d : PatientCreate) :
    validPatientCreate d = true ↔
      0 < d.age ∧ d.age < 120 ∧ validGender d.gender = true ∧
        (0 : ℚ) < d.height ∧ (0 : ℚ) < d.weight := by
  simp [validPatientCreate, and_assoc]

/-- The update constraints spelled out: each creation constraint, imposed
exactly on the provided fields. -/
theorem validPatientUpdate_iff (u : PatientUpdate) :
    validPatientUpdate u = true ↔
      (∀ a, u.age = some a → 0 < a ∧ a < 120) ∧
        (∀ g, u.gender = some g → validGender g = true) ∧
        (∀ x, u.height = some x → (0 : ℚ) < x) ∧
        (∀ x, u.weight = some x → (0 : ℚ) < x) := by
  unfold validPatientUpdate
  rcases hA : u.age with _ | a <;> rcases hG : u.gender with _ | g <;>
    rcases hH : u.height with _ | x <;> rcases hW : u.weight with _ | y <;>
      simp [hA, hG, hH, hW, and_assoc]

/-- C7: a creation payload with age at most 0, age at least 120, height or
weight at most 0, or a gender outside the literal set is rejected as a
validation error with the store unchanged, and an update payload providing
such a value for any of those fields is rejected the same way. -/
theorem c7_constraints_reject :
    (∀ (db : DB) (d : PatientCreate),
      (d.age ≤ 0 ∨ 120 ≤ d.age ∨ d.height ≤ 0 ∨ d.weight ≤ 0 ∨
        validGender d.gender = false) →
      create_patient db d = (.error .validationError, db)) ∧
    (∀ (db : DB) (pid : Nat) (u : PatientUpdate),
      ((∃ a, u.age = some a ∧ (a ≤ 0 ∨ 120 ≤ a)) ∨
        (∃ x, u.height = some x ∧ x ≤ 0) ∨
        (∃ x, u.weight = some x ∧ x ≤ 0) ∨
        (∃ g, u.gender = some g ∧ validGender g = false)) →
      update_patient db pid u = (.error .validationError, db)) := by
  constructor
  · intro db d hbad
    have hv : ¬ (validPatientCreate d = true) := by
      rw [validPatientCreate_iff]
      rintro ⟨h1, h2, h3, h4, h5⟩
      rcases hbad with h | h | h | h | h
      · omega
      · omega
      · linarith
      · linarith
      · rw [h] at h3
        exact Bool.false_ne_true h3
    unfold create_patient
    rw [if_neg hv]
  · intro db pid u hbad
    have hv : ¬ (validPatientUpdate u = true) := by
      rw [validPatientUpdate_iff]
      rintro ⟨ha, hg, hh, hw⟩
      rcases hbad with ⟨a, he, h⟩ | ⟨x, he, h⟩ | ⟨x, he, h⟩ | ⟨g, he, h⟩
      · have := ha a he
        omega
      · have := hh x he
        linarith
      · have := hw x he
        linarith
      · have := hg g he
        rw [h] at this
        exact Bool.false_ne_true this
    unfold update_patient
    rw [if_neg hv]

/-- C7 witness: a creation payload with age 0 and an update payload with a
negative weight are both rejected with no change to the store. -/
theorem c7_witness :
    (badAgeCreate.age ≤ 0 ∨ 120 ≤ badAgeCreate.age ∨
        badAgeCreate.height ≤ 0 ∨ badAgeCreate.weight ≤ 0 ∨
        validGender badAgeCreate.gender = false) ∧
      create_patient sampleDB badAgeCreate
        = (.error .validationError, sampleDB) ∧
      update_patient patientDB 1 badWeightUpdate
        = (.error .validationError, patientDB) :=
  ⟨Or.inl (by decide),
    c7_constraints_reject.1 sampleDB badAgeCreate (Or.inl (by decide)),
    c7_constraints_reject.2 patientDB 1 badWeightUpdate
      (Or.inr (Or.inr (Or.inl ⟨-5, rfl, by norm_num⟩)))⟩

/-- C8: get, well-formed update, and delete on an id with no stored row all
fail with the 404 Patient-not-found error and leave the store unchanged,
and a get on an id just deleted fails with that same error. -/
theorem c8_missing_id_not_found :
    (∀ (db : DB) (pid : Nat),
      db.patients.find? (fun q => q.id == pid) = none →
      get_patient db pid = .error (.httpError patientNotFound) ∧
        delete_patient db pid = (.error (.httpError patientNotFound), db) ∧
        ∀ u, validPatientUpdate u = true →
          update_patient db pid u
            = (.error (.httpError patientNotFound), db)) ∧
    (∀ (db : DB) (pid : Nat) (m : String) (db2 : DB),
      delete_patient db pid = (.ok m, db2) →
      get_patient db2 pid = .error (.httpError patientNotFound)) ∧
    patientNotFound.status = 404 := by
  refine ⟨?_, ?_, rfl⟩
  · intro db pid hfind
    refine ⟨?_, ?_, ?_⟩
    · unfold get_patient
      rw [hfind]
    · unfold delete_patient
      rw [hfind]
    · intro u hu
      unfold update_patient
      rw [if_pos hu, hfind]
  · intro db pid m db2 hdel
    unfold delete_patient at hdel
    split at hdel
    · simp at hdel
    · simp only [Prod.mk.injEq, Except.ok.injEq] at hdel
      obtain ⟨hm, hdb⟩ := hdel
      have hnone : db2.patients.find? (fun q => q.id == pid) = none := by
        rw [← hdb]
        refine List.find?_eq_none.mpr ?_
        intro x hx
        have hxf := (List.mem_filter.mp hx).2
        simp only [Bool.not_eq_eq_eq_not, Bool.not_true] at hxf
        simp [hxf]
      unfold get_patient
      rw [hnone]

/-- C8 witness: on a store with one patient of id 1, the id 99 yields 404
for get, update with the empty payload, and delete, all with the store
unchanged; deleting id 1 and then getting id 1 yields 404. -/
theorem c8_witness :
    patientDB.patients.find? (fun q => q.id == 99) = none ∧
      get_patient patientDB 99 = .error (.httpError patientNotFound) ∧
      delete_patient patientDB 99
        = (.error (.httpError patientNotFound), patientDB) ∧
      update_patient patientDB 99 emptyUpdate
        = (.error (.httpError patientNotFound), patientDB) ∧
      delete_patient patientDB 1 = (.ok "Patient deleted successfully", emptiedDB) ∧
      get_patient emptiedDB 1 = .error (.httpError patientNotFound) :=
  ⟨rfl,
    (c8_missing_id_not_found.1 patientDB 99 rfl).1,
    (c8_missing_id_not_found.1 patientDB 99 rfl).2.1,
    (c8_missing_id_not_found.1 patientDB 99 rfl).2.2 emptyUpdate rfl,
    rfl,
    c8_missing_id_not_found.2.1 patientDB 1 "Patient deleted successfully"
      emptiedDB rfl⟩

/-- C9 counterexample: a creation payload whose name and city are both the
empty string is accepted — the row is persisted and returned, not rejected
as a validation error. -/
theorem c9_counterexample :
    create_patient sampleDB emptyNameCreate
      = (.ok (serialize emptyNamePatient),
         ⟨[], [emptyNamePatient], 1, 2⟩) := by
  have hv : validPatientCreate emptyNameCreate = true := by
    norm_num [validPatientCreate, validGender, emptyNameCreate]
  unfold create_patient
  rw [if_pos hv]
  rfl

/-- C9 amended: the schemas require name and city only to be strings —
neither creation nor update validation depends on them, and a creation
payload that is otherwise valid is accepted even with an empty name. -/
theorem c9_amended_no_nonempty_check :
    (∀ (d : PatientCreate) (n c : String),
      validPatientCreate
        ⟨n, c, d.age, d.gender, d.height, d.weight, d.diagnosis, d.prescription⟩
        = validPatientCreate d) ∧
    (∀ (u : PatientUpdate) (n c : Option String),
      validPatientUpdate
        ⟨n, c, u.age, u.gender, u.height, u.weight, u.diagnosis, u.prescription⟩
        = validPatientUpdate u) ∧
    (∀ (db : DB) (d : PatientCreate),
      validPatientCreate d = true → d.name = "" →
      ∃ resp db2, create_patient db d = (.ok resp, db2) ∧ resp.name = "") := by
  refine ⟨fun d n c => rfl, fun u n c => rfl, ?_⟩
  intro db d hv hname
  refine ⟨serialize ⟨db.nextPatientId, d.name, d.city, d.age, d.gender,
      d.height, d.weight, d.diagnosis, d.prescription⟩,
    ⟨db.doctors,
      db.patients ++ [⟨db.nextPatientId, d.name, d.city, d.age, d.gender,
        d.height, d.weight, d.diagnosis, d.prescription⟩],
      db.nextDoctorId, db.nextPatientId + 1⟩, ?_, ?_⟩
  · unfold create_patient
    rw [if_pos hv]
  · simpa [serialize] using hname

/-- C9 amended witness: the concrete empty-name payload is accepted. -/
theorem c9_amended_witness :
    validPatientCreate emptyNameCreate = true ∧ emptyNameCreate.name = "" ∧
      ∃ resp db2,
        create_patient sampleDB emptyNameCreate = (.ok resp, db2) ∧
          resp.name = "" :=
  ⟨by norm_num [validPatientCreate, validGender, emptyNameCreate], rfl,
    c9_amended_no_nonempty_check.2.2 sampleDB emptyNameCreate
      (by norm_num [validPatientCreate, validGender, emptyNameCreate]) rfl⟩

/-- C2 counterexample: for weight 70 kg and height 1.75 m the serialized
bmi is not 24.49 (the code computes 22.86). -/
theorem c2_counterexample : (serialize patient70).bmi ≠ 24.49 := by
  norm_num [serialize, patient70, bmiOf, round2, roundHalfEven]

/-- C2 amended: for weight 70 and height 1.75 the serialized bmi is 22.86
with verdict Normal; for weight 45 and height 1.70 the bmi is 15.57 with
verdict Underweight. -/
theorem c2_amended :
    (serialize patient70).bmi = 22.86 ∧
      (serialize patient70).verdict = "Normal" ∧
      (serialize patient45).bmi = 15.57 ∧
      (serialize patient45).verdict = "Underweight" := by
  refine ⟨?_, ?_, ?_, ?_⟩ <;>
    norm_num [serialize, patient70, patient45, bmiOf, round2, roundHalfEven,
      verdictOf]

end PMS
